import Mathlib

/-!
Verification development for the `device-detector-rs` user-agent detection
engine.  The Rust sources are shallowly embedded: strings are modelled as
`List Char` (called `Str` below), compiled regexes are modelled as abstract
match functions `Str → Bool` (or `Str → Option _` when capture groups
matter), and each Rust function of interest is translated into a Lean
function with the same control flow.  Pure helper functions
(`version_lt`, `substitute`, `DeviceType::from_str`, ...) are translated
directly; the `regex`/`fancy_regex`/`regex_filtered` crates are external
collaborators and enter the model only through their documented contracts.
-/

namespace DeviceDetectorRs

/-- Strings of the Rust sources are modelled as lists of characters. -/
abbrev Str := List Char

/-- Capture groups of a regex match: group index to matched text, `none`
when the group did not participate in the match. -/
abbrev Caps := Nat → Option Str

/-! ## String helpers shared by several components -/

/-- Model of Rust `str::split(sep)`: split on every occurrence of `sep`,
keeping empty pieces (`"".split('.')` yields `[""]`, `"a..b"` yields
`["a", "", "b"]`). -/
def splitOnChar (sep : Char) : Str → List Str
  | [] => [[]]
  | c :: rest =>
    if c = sep then [] :: splitOnChar sep rest
    else match splitOnChar sep rest with
      | [] => [[c]]
      | p :: ps => (c :: p) :: ps

/-- Model of Rust `<u32 as FromStr>::from_str(s).unwrap_or(0)` as used in
`helpers.rs`: an optional leading `+`, then one or more ASCII digits, value
below `2^32`; anything else (including overflow) falls back to `0`. -/
def rustParseU32OrZero (s : Str) : Nat :=
  let t := match s with
    | '+' :: rest => rest
    | _ => s
  if t ≠ [] ∧ t.all Char.isDigit then
    let v := t.foldl (fun acc c => acc * 10 + (c.toNat - 48)) 0
    if v < 2 ^ 32 then v else 0
  else 0

/-- Model of Rust `char::is_whitespace` (the Unicode `White_Space`
property; this is the trim predicate `substitution.rs` uses, and it is
strictly larger than ASCII whitespace). -/
def rustIsWhitespace (c : Char) : Bool :=
  ('\u0009' ≤ c && c ≤ '\u000D') || c = ' ' || c = '\u0085' || c = '\u00A0' ||
  c = '\u1680' || ('\u2000' ≤ c && c ≤ '\u200A') || c = '\u2028' ||
  c = '\u2029' || c = '\u202F' || c = '\u205F' || c = '\u3000'

/-- ASCII whitespace (the trim predicate the claim about `substitute`
describes: `' '`, tab, LF, FF, CR). -/
def asciiIsWhitespace (c : Char) : Bool :=
  c = ' ' || c = '\u0009' || c = '\u000A' || c = '\u000C' || c = '\u000D'

/-- `trim_end_matches(|c| c.is_whitespace() || c == '.')` from
`substitution.rs`. -/
def trimEndWsDot (s : Str) : Str :=
  (s.reverse.dropWhile fun c => rustIsWhitespace c || c = '.').reverse

/-- Trailing-trim with the ASCII whitespace predicate, as the claim about
`substitute` words it. -/
def trimEndAsciiDot (s : Str) : Str :=
  (s.reverse.dropWhile fun c => asciiIsWhitespace c || c = '.').reverse

/-- Model of Rust `str::eq_ignore_ascii_case`: equality after mapping
ASCII uppercase letters to lowercase (non-ASCII characters are compared
verbatim). -/
def asciiLowerChar (c : Char) : Char :=
  if 'A' ≤ c ∧ c ≤ 'Z' then Char.ofNat (c.toNat + 32) else c

def eqIgnoreAsciiCase (a b : Str) : Bool :=
  a.map asciiLowerChar = b.map asciiLowerChar

/-- Model of Rust `str::contains(needle)` (substring containment). -/
def containsSub (needle hay : Str) : Bool :=
  hay.tails.any fun t => needle.isPrefixOf t

/-! ## `helpers.rs`: the dotted-numeric version comparator -/

/-- The loop body of `version_lt` (`helpers.rs`, lines 6–26), operating on
the two component iterators.  Note the `(None, Some bv)` arm: the Rust
code returns immediately after inspecting only the FIRST surplus component
of `b`. -/
def versionLtGo : List Str → List Str → Bool
  | [], [] => false
  | [], bv :: _ => rustParseU32OrZero bv > 0
  | _ :: _, [] => false
  | av :: as_, bv :: bs =>
    let an := rustParseU32OrZero av
    let bn := rustParseU32OrZero bv
    if an < bn then true
    else if an > bn then false
    else versionLtGo as_ bs

/-- `version_lt` from `helpers.rs`: split both sides on `.` and run the
component loop. -/
def version_lt (a b : Str) : Bool :=
  versionLtGo (splitOnChar '.' a) (splitOnChar '.' b)

/-- `version_ge` from `helpers.rs`, defined as the negation of
`version_lt`. -/
def version_ge (a b : Str) : Bool :=
  !version_lt a b

/-- Zero-padded component comparison, following the claim's words for C5:
dotted numeric components compared left to right with missing components
on either side treated as 0. -/
def anyPosComponent : List Nat → Bool
  | [] => false
  | b :: bs => if 0 < b then true else anyPosComponent bs

def versionLtPaddedGo : List Nat → List Nat → Bool
  | [], bs => anyPosComponent bs
  | _ :: _, [] => false
  | a :: as_, b :: bs =>
    if a < b then true else if a > b then false else versionLtPaddedGo as_ bs

def versionLtPadded (a b : Str) : Bool :=
  versionLtPaddedGo
    ((splitOnChar '.' a).map rustParseU32OrZero)
    ((splitOnChar '.' b).map rustParseU32OrZero)

/-! ## `substitution.rs`: the `$N` template substitutor -/

/-- The character walk of `substitute` (`substitution.rs`, lines 14–31):
`$` followed by an ASCII digit `d` is replaced by capture group `d` (empty
when the group is absent), any other `$` is copied verbatim. -/
def subGo (caps : Caps) : Str → Str
  | [] => []
  | ['$'] => ['$']
  | '$' :: d :: rest =>
    if d.isDigit then ((caps (d.toNat - 48)).getD []) ++ subGo caps rest
    else '$' :: subGo caps (d :: rest)
  | c :: rest => c :: subGo caps rest

/-- `substitute` from `substitution.rs`: fast path when the template
contains no `$`, otherwise the walk, and in both cases a final trailing
trim of Unicode whitespace and `.`. -/
def substitute (template : Str) (caps : Caps) : Str :=
  if !template.contains '$' then trimEndWsDot template
  else trimEndWsDot (subGo caps template)

/-- The claim's description of `substitute` for C7, taken literally:
identical placeholder expansion, but the final trim removes only ASCII
whitespace (and `.`). -/
def substituteClaimAscii (template : Str) (caps : Caps) : Str :=
  trimEndAsciiDot (subGo caps template)

/-- The amended description of `substitute`: placeholder expansion
(`$d` → capture `d` or empty, other `$` literal) applied to the whole
template, then trailing Unicode whitespace and `.` trimmed — with no
separate fast path. -/
def substituteSpec (template : Str) (caps : Caps) : Str :=
  trimEndWsDot (subGo caps template)

/-! ## `types/device_type.rs`: the device-type enumeration -/

inductive DeviceType where
  | desktop | smartphone | tablet | phablet | featurePhone | console | tv
  | carBrowser | camera | portableMediaPlayer | notebook | smartDisplay
  | smartSpeaker | wearable | peripheral
deriving DecidableEq, Repr

/-- Model of Rust `str::to_lowercase` at the character level, restricted
to what `DeviceType::from_str` can observe.  ASCII uppercase letters map
to lowercase; U+212A (KELVIN SIGN) is the only non-ASCII character whose
full Unicode lowercasing is a single ASCII character (`k`), and U+0130
lowercases to the two characters `i` U+0307.  Every other character
either is unchanged or lowercases to non-ASCII characters, which can
never occur in one of the ASCII keyword strings below, so mapping it to
itself preserves equality with every keyword. -/
def rustLowerChar (c : Char) : Str :=
  if 'A' ≤ c ∧ c ≤ 'Z' then [Char.ofNat (c.toNat + 32)]
  else if c = '\u212A' then ['k']
  else if c = '\u0130' then ['i', '\u0307']
  else [c]

def rustLowercase (s : Str) : Str :=
  s.flatMap rustLowerChar

/-- The keyword table of `DeviceType::from_str` (`device_type.rs`, lines
21–40), in source order; `television` is an alias of `tv`. -/
def deviceTypeKeys : List (Str × DeviceType) :=
  [("desktop".data, .desktop), ("smartphone".data, .smartphone),
   ("tablet".data, .tablet), ("phablet".data, .phablet),
   ("feature phone".data, .featurePhone), ("console".data, .console),
   ("tv".data, .tv), ("television".data, .tv),
   ("car browser".data, .carBrowser), ("camera".data, .camera),
   ("portable media player".data, .portableMediaPlayer),
   ("notebook".data, .notebook), ("smart display".data, .smartDisplay),
   ("smart speaker".data, .smartSpeaker), ("wearable".data, .wearable),
   ("peripheral".data, .peripheral)]

/-- `DeviceType::from_str`: lowercase the input and match it against the
keyword table; `none` on anything else. -/
def DeviceType.fromStr (s : Str) : Option DeviceType :=
  (deviceTypeKeys.find? fun kv => kv.1 == rustLowercase s).map (·.2)

/-- Brand-level device type during rule-table loading
(`device_detector.rs`, lines 852–856):
`entry.device.as_deref().and_then(DeviceType::from_str).or(Some(default_type))`. -/
def brandDeviceType (device? : Option Str) (default_type : DeviceType) : Option DeviceType :=
  (device?.bind DeviceType.fromStr).or (some default_type)

/-- Model-level device type during rule-table loading
(`device_detector.rs`, lines 865–866):
`model.device.as_deref().and_then(DeviceType::from_str)` — no fallback. -/
def modelDeviceType (device? : Option Str) : Option DeviceType :=
  device?.bind DeviceType.fromStr

/-! ## `parser.rs`: the two-engine first-match split

`CompiledParser::match_first` and `DeviceBrandParser::match_first` select
an entry index; the per-entry data and captures are then read off that
index, so the selection logic is modelled as a function returning the
chosen entry index.  A rule table with `n` entries is abstracted by
`isStd : Nat → Bool` (does the `regex` crate accept the full pattern, so
the entry lives in the `regex_filtered` set?) and, for a fixed UA,
`m : Nat → Bool` (does entry `i`'s boundary-prefixed case-insensitive
regex match the UA?).  `regex_filtered::Regexes::matching` is modelled by
its contract: it yields exactly the matching standard entries in
ascending index order. -/

/-- `CompiledParser::match_first` (`parser.rs`, lines 146–201).
`best?` is the first hit of `regex_filtered` (lowest matching standard
entry index); fancy entries below that cutoff are tried in ascending
order; then the filtered hit itself; then fancy entries above the
cutoff (only reachable if the filtered captures had failed). -/
def cpMatchFirst (n : Nat) (isStd m : Nat → Bool) : Option Nat :=
  let fancy := (List.range n).filter fun i => !isStd i
  let best? := ((List.range n).filter fun i => isStd i).find? m
  match best? with
  | none => fancy.find? m
  | some c =>
    match fancy.find? fun i => decide (i < c) && m i with
    | some i => some i
    | none =>
      if m c then some c
      else match fancy.find? fun i => decide (c < i) && m i with
        | some i => some i
        | none => none

/-- `DeviceBrandParser::match_first` (`parser.rs`, lines 297–363): the
same split, with an `is_match` check before `captures` in each fancy
branch (under a deterministic regex model the two coincide). -/
def dbpMatchFirst (n : Nat) (isStd m : Nat → Bool) : Option Nat :=
  let fancy := (List.range n).filter fun i => !isStd i
  let best? := ((List.range n).filter fun i => isStd i).find? m
  match best? with
  | none => fancy.find? m
  | some c =>
    match fancy.find? fun i => decide (i < c) && m i with
    | some i => some i
    | none =>
      if m c then some c
      else match fancy.find? fun i => decide (c < i) && m i with
        | some i => some i
        | none => none

/-- The single notional engine of the spec: try every rule's regex in
table order and return the first match. -/
def naiveMatchFirst (n : Nat) (m : Nat → Bool) : Option Nat :=
  (List.range n).find? m

/-! ## `device_prefilter.rs`: the Overall pre-filter

`build_overall_prefilter` joins all brand gate patterns of one device
file with `|`, wraps the union once with the Matomo boundary pattern
`(?:^|[^A-Z0-9_\\-]|[^A-Z0-9\\-]_|sprd\\-|MZ\\-)` and the `(?i)` flag, and
compiles the result; individual brand gates receive the same wrapper one
by one (`full_pattern` in `parser.rs`).  ASCII-joining with `|` is
modelled at the syntax-tree level as regular-expression alternation
(`Mathlib.Computability.RegularExpressions`), and the wrapper by an
arbitrary boundary expression `bnd` together with the `^` alternative,
which anchors the body at the start of the haystack. -/

/-- `|`-join of the brand gate patterns: `r1|r2|...|rn` (empty union for
an empty file). -/
def altList (rs : List (RegularExpression Char)) : RegularExpression Char :=
  rs.foldr (· + ·) 0

/-- Unanchored `is_match`: some substring of `s` is in the language. -/
def searchRmatch (r : RegularExpression Char) (s : Str) : Bool :=
  s.tails.any fun t => t.inits.any fun i => r.rmatch i

/-- `is_match` of the wrapped pattern `(?:^|bnd)(?:body)`: either `body`
matches a prefix of the haystack (the `^` alternative), or `bnd` followed
by `body` matches somewhere. -/
def boundaryMatch (bnd body : RegularExpression Char) (s : Str) : Bool :=
  (s.inits.any fun i => body.rmatch i) || searchRmatch (bnd * body) s

/-- `DevicePrefilter::build_overall_prefilter` + `DevicePrefilter::matches`
(`device_prefilter.rs`, lines 21–41): the empty file yields
`DevicePrefilter::None` (always passes); otherwise the wrapped `|`-join
is matched against the UA. -/
def overallPrefilterMatch (bnd : RegularExpression Char)
    (rs : List (RegularExpression Char)) (s : Str) : Bool :=
  if rs.isEmpty then true else boundaryMatch bnd (altList rs) s

/-! ## Data carried by the rule tables (`parser_data.rs`, `db.rs`) -/

inductive ClientType where
  | browser | feedReader | mobileApp | library | mediaPlayer | pim
deriving DecidableEq, Repr

structure BotProducerData where
  name : Option Str
  url : Option Str
deriving DecidableEq, Repr

structure BotData where
  name : Str
  category : Option Str
  url : Option Str
  producer : Option BotProducerData
deriving DecidableEq, Repr

structure OsData where
  name : Str
  version_template : Option Str
deriving DecidableEq, Repr

structure ClientData where
  kind : ClientType
  name : Str
  version_template : Option Str
  engine_default : Option Str
  engine_versions : Option (List (Str × Str))
deriving DecidableEq, Repr

structure EngineData where
  name : Str
deriving DecidableEq, Repr

structure VendorFragmentData where
  brand : Str
deriving DecidableEq, Repr

structure DeviceBrandData where
  brand : Str
  model_template : Option Str
  device_type : Option DeviceType
deriving DecidableEq, Repr

structure DeviceModelData where
  brand : Option Str
  model_template : Option Str
  device_type : Option DeviceType
deriving DecidableEq, Repr

/-! ## Public result types (`types/detection.rs`, `types/client_hints.rs`) -/

structure Bot where
  name : Str
  category : Option Str
  url : Option Str
  producer : Option BotProducerData
deriving DecidableEq, Repr

structure Os where
  name : Str
  version : Str
deriving DecidableEq, Repr

structure Client where
  kind : ClientType
  name : Str
  version : Str
  engine : Str
  engine_version : Str
deriving DecidableEq, Repr

structure Device where
  kind : Option DeviceType
  brand : Str
  model : Str
deriving DecidableEq, Repr

structure Detection where
  bot : Option Bot
  os : Option Os
  client : Option Client
  device : Option Device
deriving DecidableEq, Repr

structure ClientHints where
  x_requested_with : Option Str
  model : Option Str
  mobile : Option Bool
deriving DecidableEq, Repr

/-- `capture_or_empty` from `helpers.rs`. -/
def captureOrEmpty (caps : Caps) (group : Nat) : Str :=
  (caps group).getD []

/-! ## The detector (`device_detector.rs`)

Each compiled matcher is abstracted by its observable behaviour on a UA:
`match_first` becomes a function `Str → Option (data × Caps)` (C1 settles
that this equals the naive in-order first match).  The heuristic regexes
of `HeuristicRegexes` become sixteen abstract predicates; the OS
classification helpers `is_android_os` / `is_desktop_os` live in
`os_helpers.rs`, which is declared in `lib.rs` but not shipped in this
tree, so they are kept abstract too (every claim proved below holds for
arbitrary such predicates). -/

structure ModelMatch where
  data : DeviceModelData
  captures : Caps

structure BrandMatch where
  brand_data : DeviceBrandData
  brand_captures : Caps
  model_match : Option ModelMatch

/-- One device file as the pipeline sees it
(`DeviceDetector::device_parsers`): default type, pre-filter,
`claims_type` flag, brand/model matcher. -/
abbrev DeviceFileSpec :=
  DeviceType × (Str → Bool) × Bool × (Str → Option BrandMatch)

structure Detector where
  botMatcher : Str → Option (BotData × Caps)
  osMatcher : Str → Option (OsData × Caps)
  clientMatchers : List (Str → Option (ClientData × Caps))
  engineMatcher : Str → Option (EngineData × Caps)
  vendorFragmentMatcher : Str → Option (VendorFragmentData × Caps)
  deviceSpecs : List DeviceFileSpec
  appHints : Str → Option Str
  browserHints : Str → Option Str
  isAndroidOs : Str → Bool
  isDesktopOs : Str → Bool
  hrVr : Str → Bool
  hrChromeAndroid : Str → Bool
  hrMobileElibom : Str → Bool
  hrPadApad : Str → Bool
  hrAndroidTablet : Str → Bool
  hrOperaTablet : Str → Bool
  hrAndroidMobile : Str → Bool
  hrTouch : Str → Bool
  hrPuffinDesktop : Str → Bool
  hrPuffinSmartphone : Str → Bool
  hrPuffinTablet : Str → Bool
  hrOperaTv : Str → Bool
  hrAndroidTv : Str → Bool
  hrSmartTvTizen : Str → Bool
  hrTvFragment : Str → Bool
  hrDesktopFragment : Str → Bool

/-- The known-TV client names of the heuristic ladder
(`device_detector.rs`, lines 573–589), compared exactly. -/
def tvClientNames : List Str :=
  ["Kylo".data, "Espial TV Browser".data, "LUJO TV Browser".data,
   "LogicUI TV Browser".data, "Open TV Browser".data, "Seraphic Sraf".data,
   "Opera Devices".data, "Crow Browser".data, "Vewd Browser".data,
   "TiviMate".data, "Quick Search TV".data, "QJY TV Browser".data,
   "TV Bro".data, "Redline".data]

/-- `DeviceDetector::resolve_engine` (`device_detector.rs`, lines
681–725).  With a configured default engine: apply the
`engine.versions` threshold overrides in insertion order (last
qualifying entry wins), then, if the resulting name is non-empty,
consult the engine matcher and keep its result only when the names agree
ASCII-case-insensitively.  Without a configured default engine — or when
the resulting name is empty — fall through to the engine matcher
directly. -/
def resolveEngine (engineMatcher : Str → Option (EngineData × Caps))
    (ua : Str) (client_data : ClientData) (browser_version : Str) : Str × Str :=
  let fallthrough : Str × Str :=
    match engineMatcher ua with
    | some (d, caps) => (d.name, captureOrEmpty caps 1)
    | none => ([], [])
  match client_data.engine_default with
  | some default_engine =>
    let engine_name :=
      if browser_version ≠ [] then
        match client_data.engine_versions with
        | some versions =>
          versions.foldl
            (fun nm tv => if version_ge browser_version tv.1 then tv.2 else nm)
            default_engine
        | none => default_engine
      else default_engine
    if engine_name ≠ [] then
      match engineMatcher ua with
      | some (d, caps) =>
        if eqIgnoreAsciiCase d.name engine_name then (d.name, captureOrEmpty caps 1)
        else (engine_name, [])
      | none => (engine_name, [])
    else fallthrough
  | none => fallthrough

/-- `DeviceDetector::detect_client` (`device_detector.rs`, lines
648–679): the six client tables in fixed order, first hit wins; name and
version by template substitution, engine via `resolve_engine`. -/
def detectClient (d : Detector) (ua : Str) : Option Client :=
  d.clientMatchers.findSome? fun matcher =>
    (matcher ua).map fun m =>
      let version := match m.1.version_template with
        | some tpl => substitute tpl m.2
        | none => captureOrEmpty m.2 1
      let engine_pair := resolveEngine d.engineMatcher ua m.1 version
      { kind := m.1.kind, name := substitute m.1.name m.2, version := version,
        engine := engine_pair.1, engine_version := engine_pair.2 }

/-- Step 4 of `parse_with_hints` (`device_detector.rs`, lines 374–414):
the `X-Requested-With` client override from hints. -/
def applyXrwOverride (d : Detector) (client : Option Client)
    (xrw : Option Str) : Option Client :=
  match xrw with
  | none => client
  | some x =>
    match d.appHints x with
    | some app_name =>
      let keep_version := match client with
        | some c => eqIgnoreAsciiCase c.name app_name
        | none => false
      let version := if keep_version then (client.map (·.version)).getD [] else []
      some { kind := .mobileApp, name := app_name, version := version,
             engine := [], engine_version := [] }
    | none =>
      match d.browserHints x with
      | some browser_name =>
        let keep_version := match client with
          | some c => eqIgnoreAsciiCase c.name browser_name
          | none => false
        let version := if keep_version then (client.map (·.version)).getD [] else []
        let engine := if keep_version then (client.map (·.engine)).getD [] else []
        let engine_version :=
          if keep_version then (client.map (·.engine_version)).getD [] else []
        some { kind := .browser, name := browser_name, version := version,
               engine := engine, engine_version := engine_version }
      | none => client

/-- The body of one iteration of the `detect_device` loop
(`device_detector.rs`, lines 728–784) for a single device file: pre-filter
gate, then the brand/model matcher, then the `claims_type` fallback. -/
def fileYield (spec : DeviceFileSpec) (ua : Str) : Option Device :=
  let (default_type, prefilter, claims_type, brand_matcher) := spec
  if prefilter ua then
    match brand_matcher ua with
    | some m =>
      match m.model_match with
      | some mm =>
        some { kind := some ((mm.data.device_type.or m.brand_data.device_type).getD default_type),
               brand := mm.data.brand.getD m.brand_data.brand,
               model := match mm.data.model_template with
                 | some tpl => substitute tpl mm.captures
                 | none => [] }
      | none =>
        some { kind := some (m.brand_data.device_type.getD default_type),
               brand := m.brand_data.brand,
               model := match m.brand_data.model_template with
                 | some tpl => substitute tpl m.brand_captures
                 | none => [] }
    | none =>
      if claims_type then some { kind := some default_type, brand := [], model := [] }
      else none
  else none

/-- `DeviceDetector::detect_device` over an explicit file list: first
file that yields a device wins. -/
def detectDeviceList (specs : List DeviceFileSpec) (ua : Str) : Option Device :=
  specs.findSome? (fileYield · ua)

def detectDevice (d : Detector) (ua : Str) : Option Device :=
  detectDeviceList d.deviceSpecs ua

/-- Step 2 of `parse_with_hints` (`device_detector.rs`, lines 360–369):
OS detection. -/
def detectOs (d : Detector) (ua : Str) : Option Os :=
  (d.osMatcher ua).map fun m =>
    { name := substitute m.1.name m.2,
      version := match m.1.version_template with
        | some tpl => substitute tpl m.2
        | none => captureOrEmpty m.2 1 }

/-- The client after steps 3 and 4 of `parse_with_hints` (detection plus
the `X-Requested-With` override); it is not modified afterwards. -/
def finalClient (d : Detector) (ua : Str) (hints : Option ClientHints) : Option Client :=
  applyXrwOverride d (detectClient d ua) (hints.bind (·.x_requested_with))

/-- Steps 5–11 of `parse_with_hints` (`device_detector.rs`, lines
416–627): device detection, the Unknown-brand scrub, the vendor-fragment
fallback, the Apple normalisation, the heuristic ladder, and the two
hint fallbacks.  Returns the final `(device_type, brand, model)` triple
that feeds the emit decision. -/
def deviceFinals (d : Detector) (ua : Str) (hints : Option ClientHints)
    (os : Option Os) (client : Option Client) : Option DeviceType × Str × Str :=
  let device := detectDevice d ua
  let dbm : Option DeviceType × Str × Str := match device with
    | some dev => (dev.kind, dev.brand, dev.model)
    | none => (none, [], [])
  let device_type := dbm.1
  let brand := if dbm.2.1 = "Unknown".data then [] else dbm.2.1
  let model := dbm.2.2
  let brand := if brand = [] then
      match d.vendorFragmentMatcher ua with
      | some m => m.1.brand
      | none => brand
    else brand
  let os_name := (os.map (·.name)).getD []
  let os_version := (os.map (·.version)).getD []
  let is_apple_os := os_name = "iPadOS".data ∨ os_name = "tvOS".data ∨
    os_name = "watchOS".data ∨ os_name = "iOS".data ∨ os_name = "Mac".data
  let is_android_family := match os with
    | some o => d.isAndroidOs o.name
    | none => false
  let client_name := (client.map (·.name)).getD []
  let (device_type, brand, model) :=
    if brand = "Apple".data ∧ ¬is_apple_os then (none, [], [])
    else (device_type, brand, model)
  let brand := if brand = [] ∧ is_apple_os then "Apple".data else brand
  let device_type := if device_type.isNone && d.hrVr ua then some .wearable else device_type
  let device_type :=
    if device_type.isNone && is_android_family && d.hrChromeAndroid ua then
      (if d.hrMobileElibom ua then some DeviceType.smartphone else some .tablet)
    else device_type
  let device_type :=
    if device_type = some .smartphone && d.hrPadApad ua then some .tablet else device_type
  let device_type :=
    if device_type.isNone && (d.hrAndroidTablet ua || d.hrOperaTablet ua) then some .tablet
    else device_type
  let device_type :=
    if device_type.isNone && d.hrAndroidMobile ua then some .smartphone else device_type
  let device_type :=
    if device_type.isNone && os_name = "Android".data && os_version ≠ [] then
      (if version_lt os_version "2.0".data then some DeviceType.smartphone
       else if version_ge os_version "3.0".data && version_lt os_version "4.0".data then
         some .tablet
       else device_type)
    else device_type
  let device_type :=
    if device_type = some .featurePhone && is_android_family then some .smartphone
    else device_type
  let device_type :=
    if os_name = "Java ME".data && device_type.isNone then some .featurePhone else device_type
  let device_type := if os_name = "KaiOS".data then some .featurePhone else device_type
  let device_type :=
    if device_type.isNone &&
       (os_name = "Windows RT".data ||
        (os_name = "Windows".data && os_version ≠ [] && version_ge os_version "8".data)) &&
       d.hrTouch ua then some .tablet
    else device_type
  let device_type :=
    if device_type.isNone && d.hrPuffinDesktop ua then some .desktop else device_type
  let device_type :=
    if device_type.isNone && d.hrPuffinSmartphone ua then some .smartphone else device_type
  let device_type :=
    if device_type.isNone && d.hrPuffinTablet ua then some .tablet else device_type
  let device_type := if d.hrOperaTv ua then some .tv else device_type
  let (device_type, brand) :=
    if os_name = "Coolita OS".data then (some DeviceType.tv, "coocaa".data)
    else (device_type, brand)
  let device_type :=
    if !(device_type = some .tv || device_type = some .peripheral) && d.hrAndroidTv ua then
      some .tv
    else device_type
  let device_type :=
    if device_type.isNone && d.hrSmartTvTizen ua then some .tv else device_type
  let device_type := if tvClientNames.contains client_name then some .tv else device_type
  let device_type :=
    if device_type.isNone && d.hrTvFragment ua then some .tv else device_type
  let device_type :=
    if device_type ≠ some .desktop ∧ containsSub "Desktop".data ua = true ∧
       d.hrDesktopFragment ua = true then some .desktop
    else device_type
  let device_type :=
    if device_type.isNone &&
       (match os with | some o => d.isDesktopOs o.name | none => false) then some .desktop
    else device_type
  let model := if model = [] then
      match hints.bind (·.model) with
      | some hint_model => if hint_model ≠ [] then hint_model else model
      | none => model
    else model
  let device_type :=
    if device_type.isNone && (hints.bind (·.mobile) = some true) then some .smartphone
    else device_type
  (device_type, brand, model)

/-- `DeviceDetector::parse_with_hints` (`device_detector.rs`, lines
336–646): bot short-circuit, then OS, client, hint override, device
pipeline, and the final emit decision
(`device_type.is_some() || !brand.is_empty()`). -/
def parseWithHints (d : Detector) (ua : Str) (hints : Option ClientHints) : Detection :=
  match d.botMatcher ua with
  | some m =>
    { bot := some { name := substitute m.1.name m.2, category := m.1.category,
                    url := m.1.url, producer := m.1.producer },
      os := none, client := none, device := none }
  | none =>
    let os := detectOs d ua
    let client := finalClient d ua hints
    let fin := deviceFinals d ua hints os client
    let device := if fin.1.isSome || !fin.2.1.isEmpty then
        some { kind := fin.1, brand := fin.2.1, model := fin.2.2 }
      else none
    { bot := none, os := os, client := client, device := device }

/-! ## Concrete instances used by the closed witness theorems -/

/-- A detector none of whose matchers fire, with one `app_hints` entry. -/
def emptyDetector : Detector where
  botMatcher := fun _ => none
  osMatcher := fun _ => none
  clientMatchers := []
  engineMatcher := fun _ => none
  vendorFragmentMatcher := fun _ => none
  deviceSpecs := []
  appHints := fun st => if st = "com.example.app".data then some "Example App".data else none
  browserHints := fun _ => none
  isAndroidOs := fun _ => false
  isDesktopOs := fun _ => false
  hrVr := fun _ => false
  hrChromeAndroid := fun _ => false
  hrMobileElibom := fun _ => false
  hrPadApad := fun _ => false
  hrAndroidTablet := fun _ => false
  hrOperaTablet := fun _ => false
  hrAndroidMobile := fun _ => false
  hrTouch := fun _ => false
  hrPuffinDesktop := fun _ => false
  hrPuffinSmartphone := fun _ => false
  hrPuffinTablet := fun _ => false
  hrOperaTv := fun _ => false
  hrAndroidTv := fun _ => false
  hrSmartTvTizen := fun _ => false
  hrTvFragment := fun _ => false
  hrDesktopFragment := fun _ => false

/-- `emptyDetector` with a bot rule that matches every UA. -/
def botOnlyDetector : Detector :=
  { emptyDetector with
    botMatcher := fun _ =>
      some ({ name := "Googlebot".data, category := none, url := none,
              producer := none }, fun _ => none) }

/-- A client rule carrying `engine.versions` but no `engine.default`
(YAML `engine: \x7b versions: \x7b 1: Blink \x7d \x7d`). -/
def clientNoDefaultEngine : ClientData :=
  { kind := .browser, name := "X".data, version_template := none,
    engine_default := none, engine_versions := some [("1".data, "Blink".data)] }

/-- The same rule with an empty (but present) `engine.default`. -/
def clientEmptyDefaultEngine : ClientData :=
  { clientNoDefaultEngine with engine_default := some [] }

/-- A brand match with a non-empty brand and no model hit. -/
def tclBrandMatch : BrandMatch :=
  { brand_data := { brand := "TCL".data, model_template := none, device_type := none },
    brand_captures := fun _ => none, model_match := none }

/-- A `shell_tv.yml`-shaped file: `claims_type`, pre-filter passes, one
brand matches. -/
def shellTvLike : DeviceFileSpec := (.tv, fun _ => true, true, fun _ => some tclBrandMatch)

/-- A `televisions.yml`-shaped file: `claims_type`, pre-filter passes,
no brand matches. -/
def televisionsLike : DeviceFileSpec := (.tv, fun _ => true, true, fun _ => none)

/-! ## List lemmas for the first-match proofs -/

theorem find?_filter_fuse {α : Type} (p q : α → Bool) (l : List α) :
    (l.filter p).find? q = l.find? fun a => p a && q a := by
  induction l with
  | nil => rfl
  | cons a l ih =>
    cases hp : p a <;> cases hq : q a <;>
      simp [List.filter_cons, List.find?_cons, hp, hq, ih]

theorem find?_congr_mem {α : Type} {l : List α} {p q : α → Bool}
    (h : ∀ a ∈ l, p a = q a) : l.find? p = l.find? q := by
  induction l with
  | nil => rfl
  | cons a l ih =>
    have ha := h a (List.mem_cons_self a l)
    have ht := ih fun b hb => h b (List.mem_cons_of_mem a hb)
    cases hq : q a <;> simp [List.find?_cons, ha, hq, ht]

theorem range_find?_eq_none {n : Nat} {p : Nat → Bool} :
    (List.range n).find? p = none ↔ ∀ j, j < n → p j = false := by
  rw [List.find?_eq_none]
  constructor
  · intro h j hj
    have := h j (List.mem_range.mpr hj)
    simpa using this
  · intro h a ha
    simp [h a (List.mem_range.mp ha)]

theorem range_find?_eq_some {n : Nat} {p : Nat → Bool} : ∀ c : Nat,
    (List.range n).find? p = some c ↔
      c < n ∧ p c = true ∧ ∀ j, j < c → p j = false := by
  induction n with
  | zero => intro c; simp
  | succ n ih =>
    intro c
    rw [List.range_succ, List.find?_append]
    cases h : (List.range n).find? p with
    | some x =>
      have hx := (ih x).mp h
      have hred : (some x).or (List.find? p [n]) = some x := rfl
      rw [hred]
      constructor
      · intro he
        injection he with he
        subst he
        exact ⟨Nat.lt_succ_of_lt hx.1, hx.2.1, hx.2.2⟩
      · rintro ⟨hc, hpc, hmin⟩
        by_cases hcn : c < n
        · have := (ih c).mpr ⟨hcn, hpc, hmin⟩
          rw [h] at this
          exact this
        · have hcn2 : c = n := Nat.le_antisymm (Nat.lt_succ_iff.mp hc) (Nat.not_lt.mp hcn)
          subst hcn2
          have hcontra := hmin x hx.1
          rw [hx.2.1] at hcontra
          cases hcontra
    | none =>
      have hall : ∀ j, j < n → p j = false := range_find?_eq_none.mp h
      have hred : (Option.none).or (List.find? p [n]) = List.find? p [n] := rfl
      rw [hred]
      cases hpn : p n with
      | true =>
        have hfn : List.find? p [n] = some n := by simp [List.find?_cons, hpn]
        rw [hfn]
        constructor
        · intro he
          injection he with he
          subst he
          exact ⟨Nat.lt_succ_self n, hpn, hall⟩
        · rintro ⟨hc, hpc, hmin⟩
          by_cases hcn : c < n
          · have hcontra := hall c hcn
            rw [hpc] at hcontra
            cases hcontra
          · have hcn2 : c = n := Nat.le_antisymm (Nat.lt_succ_iff.mp hc) (Nat.not_lt.mp hcn)
            subst hcn2
            rfl
      | false =>
        have hfn : List.find? p [n] = none := by simp [List.find?_cons, hpn]
        rw [hfn]
        constructor
        · intro he
          cases he
        · rintro ⟨hc, hpc, hmin⟩
          by_cases hcn : c < n
          · have hcontra := hall c hcn
            rw [hpc] at hcontra
            cases hcontra
          · have hcn2 : c = n := Nat.le_antisymm (Nat.lt_succ_iff.mp hc) (Nat.not_lt.mp hcn)
            subst hcn2
            rw [hpn] at hpc
            cases hpc

theorem cpMatchFirst_eq_naive (n : Nat) (isStd m : Nat → Bool) :
    cpMatchFirst n isStd m = naiveMatchFirst n m := by
  unfold cpMatchFirst naiveMatchFirst
  simp only [find?_filter_fuse]
  cases hbest : (List.range n).find? (fun a => isStd a && m a) with
  | none =>
    have hall := range_find?_eq_none.mp hbest
    apply find?_congr_mem
    intro a ha
    have ha2 := List.mem_range.mp ha
    have hfa := hall a ha2
    cases hm : m a with
    | false => simp [hm]
    | true =>
      have hstd : isStd a = false := by
        cases hs : isStd a
        · rfl
        · rw [hs, hm] at hfa
          cases hfa
      simp [hm, hstd]
  | some c =>
    obtain ⟨hcn, hconj, hmin⟩ := (range_find?_eq_some c).mp hbest
    obtain ⟨hstdc, hmc⟩ : isStd c = true ∧ m c = true := by simpa using hconj
    dsimp only
    cases h2 : (List.range n).find? (fun a => (!isStd a) && (decide (a < c) && m a)) with
    | some i =>
      obtain ⟨hin, hconj2, hmin2⟩ := (range_find?_eq_some i).mp h2
      obtain ⟨hnstdi, hic2, hmi⟩ : isStd i = false ∧ i < c ∧ m i = true := by
        simpa using hconj2
      dsimp only
      refine ((range_find?_eq_some i).mpr ⟨hin, hmi, ?_⟩).symm
      intro j hj
      cases hmj : m j with
      | false => rfl
      | true =>
        cases hsj : isStd j with
        | true =>
          have := hmin j (Nat.lt_trans hj hic2)
          rw [hsj, hmj] at this
          cases this
        | false =>
          have := hmin2 j hj
          rw [hsj, hmj, decide_eq_true (Nat.lt_trans hj hic2)] at this
          cases this
    | none =>
      have hN := range_find?_eq_none.mp h2
      dsimp only
      rw [if_pos hmc]
      refine Eq.symm ((range_find?_eq_some c).mpr ⟨hcn, hmc, ?_⟩)
      intro j hj
      cases hmj : m j with
      | false => rfl
      | true =>
        cases hsj : isStd j with
        | true =>
          have := hmin j hj
          rw [hsj, hmj] at this
          cases this
        | false =>
          have := hN j (Nat.lt_trans hj hcn)
          rw [hsj, hmj, decide_eq_true hj] at this
          cases this

theorem dbpMatchFirst_eq_naive (n : Nat) (isStd m : Nat → Bool) :
    dbpMatchFirst n isStd m = naiveMatchFirst n m := by
  have h : dbpMatchFirst = cpMatchFirst := rfl
  rw [h]
  exact cpMatchFirst_eq_naive n isStd m

/-- C1: for every rule table (any size `n`, any standard/fancy split
`isStd`) and every UA (abstracted by the per-entry match predicate `m`),
both `CompiledParser::match_first` and `DeviceBrandParser::match_first`
return exactly what the single naive in-order loop over all rules
returns; and that naive loop returns the smallest matching entry index,
or `none` when no rule matches. -/
theorem claim_C1_first_match_equiv (n : Nat) (isStd m : Nat → Bool) :
    cpMatchFirst n isStd m = naiveMatchFirst n m ∧
    dbpMatchFirst n isStd m = naiveMatchFirst n m ∧
    (∀ c, naiveMatchFirst n m = some c →
      c < n ∧ m c = true ∧ ∀ j, j < c → m j = false) ∧
    (naiveMatchFirst n m = none ↔ ∀ j, j < n → m j = false) :=
  ⟨cpMatchFirst_eq_naive n isStd m, dbpMatchFirst_eq_naive n isStd m,
   fun c hc => (range_find?_eq_some c).mp hc, range_find?_eq_none⟩

/-! ## C5: the version comparator -/

theorem versionLtGo_self (l : List Str) : versionLtGo l l = false := by
  induction l with
  | nil => rfl
  | cons a l ih => simp [versionLtGo, ih]

/-- C5 (code_bug evidence): at the failing input `a = "1"`, `b = "1.0.1"`
the code returns NOT less-than, because the `(None, Some bv)` arm of the
loop inspects only the first surplus component of `b` (here `"0"`);
the zero-padded comparison the claim — and the function's own doc
comment, "missing components treated as 0" — describes returns
less-than, as does the code itself on the explicitly padded `"1.0.0"`.
The claim's remaining parts do hold in the code: `version_ge` is the
literal negation of `version_lt`, and `version_lt a a = false` for every
`a`. -/
theorem claim_C5_version_lt_divergence :
    version_lt "1".data "1.0.1".data = false ∧
    versionLtPadded "1".data "1.0.1".data = true ∧
    version_lt "1.0.0".data "1.0.1".data = true ∧
    (∀ a b : Str, version_ge a b = !version_lt a b) ∧
    (∀ a : Str, version_lt a a = false) :=
  ⟨by decide, by decide, by decide, fun _ _ => rfl,
   fun a => versionLtGo_self (splitOnChar '.' a)⟩

/-! ## C7: the template substitutor -/

/-- On a `$`-free template the walk is the identity (the content of the
fast path of `substitute`). -/
theorem subGo_id_of_no_dollar (caps : Caps) (t : Str)
    (h : t.contains '$' = false) : subGo caps t = t := by
  induction t using subGo.induct caps with
  | case1 => rfl
  | case2 => simp at h
  | case3 d rest hd => simp at h
  | case4 d rest hd ih => simp at h
  | case5 c rest hne1 hne2 ih =>
    have hc : ('$' == c) = false ∧ rest.contains '$' = false := by
      simpa [List.contains_cons] using h
    have hcc : c ≠ '$' := by
      intro he; subst he; simp at hc
    rw [subGo.eq_def]
    split
    · simp_all
    · simp_all
    · simp_all
    · rename_i heq
      injection heq with h1 h2
      subst h1
      subst h2
      rw [ih hc.2]

/-- A non-`$` head character is copied verbatim by the walk. -/
theorem subGo_cons_ne (caps : Caps) (c : Char) (rest : Str) (h : c ≠ '$') :
    subGo caps (c :: rest) = c :: subGo caps rest := by
  rw [subGo.eq_def]
  split
  · simp_all
  · simp_all
  · simp_all
  · rename_i heq
    injection heq with h1 h2
    subst h1
    subst h2
    rfl

/-- C7 (counterexample): on the template `['a', U+00A0]` — a trailing
no-break space, Unicode whitespace but not ASCII whitespace — the code
trims the final character, while the claim's output (trailing ASCII
whitespace and `.` trimmed) keeps it. -/
theorem claim_C7_counterexample :
    substitute "a\u00A0".data (fun _ => none) = "a".data ∧
    substituteClaimAscii "a\u00A0".data (fun _ => none) = "a\u00A0".data ∧
    substitute "a\u00A0".data (fun _ => none) ≠
      substituteClaimAscii "a\u00A0".data (fun _ => none) :=
  ⟨by decide, by decide, by decide⟩

/-- C7 (amended): for every template and capture set, `substitute`
terminates with the template's placeholder expansion — `$d` (`d` an
ASCII digit) replaced by capture group `d` or by the empty string when
that group did not participate, every other `$` preserved literally —
with trailing Unicode whitespace (Rust `char::is_whitespace`) and `.`
trimmed from the result, on the fast path and the general path alike.
The conjuncts pin the walk down on every template shape. -/
theorem claim_C7_substitute_amended (template : Str) (caps : Caps) :
    substitute template caps = substituteSpec template caps ∧
    substituteSpec template caps = trimEndWsDot (subGo caps template) ∧
    (∀ d rest, d.isDigit = true →
      subGo caps ('$' :: d :: rest) =
        ((caps (d.toNat - 48)).getD []) ++ subGo caps rest) ∧
    (∀ d rest, d.isDigit = false →
      subGo caps ('$' :: d :: rest) = '$' :: subGo caps (d :: rest)) ∧
    (∀ c rest, c ≠ '$' → subGo caps (c :: rest) = c :: subGo caps rest) ∧
    subGo caps [] = [] ∧ subGo caps ['$'] = ['$'] := by
  refine ⟨?_, rfl, ?_, ?_, fun c rest h => subGo_cons_ne caps c rest h, rfl, rfl⟩
  · unfold substitute substituteSpec
    cases h : template.contains '$' with
    | false => simp [subGo_id_of_no_dollar caps template h]
    | true => simp
  · intro d rest h
    simp [subGo, h]
  · intro d rest h
    simp [subGo, h]

/-- Closed instance of the amended C7 theorem at a concrete template,
digit and non-digit placeholders included. -/
theorem claim_C7_substitute_amended_witness :
    substitute "v$1 $x".data (fun i => if i = 1 then some "9".data else none) =
      substituteSpec "v$1 $x".data (fun i => if i = 1 then some "9".data else none) ∧
    subGo (fun i => if i = 1 then some "9".data else none) ('$' :: '1' :: []) =
      "9".data ++ subGo (fun i => if i = 1 then some "9".data else none) [] ∧
    subGo (fun i => if i = 1 then some "9".data else none) ('$' :: 'x' :: []) =
      '$' :: subGo (fun i => if i = 1 then some "9".data else none) ('x' :: []) ∧
    subGo (fun i => if i = 1 then some "9".data else none) ('v' :: []) =
      'v' :: subGo (fun i => if i = 1 then some "9".data else none) [] := by
  have h := claim_C7_substitute_amended "v$1 $x".data
    (fun i => if i = 1 then some "9".data else none)
  exact ⟨h.1, h.2.2.1 '1' [] (by decide), h.2.2.2.1 'x' [] (by decide),
    h.2.2.2.2.1 'v' [] (by decide)⟩

/-! ## C10: device-type strings during rule-table loading -/

/-- C10: an unrecognized `device:` string on a brand entry is silently
replaced by the containing file's default type; on a model entry it
yields no override; and `DeviceType::from_str` succeeds exactly on the
strings whose Rust-lowercased form is one of the recognized names
(`television` included as an alias of `tv`, as the key table shows). -/
theorem claim_C10_device_type_fallback (s : Str) (default_type : DeviceType) :
    (DeviceType.fromStr s = none →
      brandDeviceType (some s) default_type = some default_type) ∧
    (DeviceType.fromStr s = none → modelDeviceType (some s) = none) ∧
    ((DeviceType.fromStr s).isSome = true ↔
      rustLowercase s ∈ deviceTypeKeys.map (·.1)) := by
  refine ⟨?_, ?_, ?_⟩
  · intro h
    simp [brandDeviceType, h]
  · intro h
    simp [modelDeviceType, h]
  · constructor
    · intro h
      cases hfind : deviceTypeKeys.find? (fun kv => kv.1 == rustLowercase s) with
      | none =>
        rw [DeviceType.fromStr, hfind] at h
        simp at h
      | some kv =>
        have hmem := List.mem_of_find?_eq_some hfind
        have hp := List.find?_some hfind
        have hfst : kv.1 = rustLowercase s := by simpa using hp
        exact hfst ▸ List.mem_map_of_mem (·.1) hmem
    · intro h
      obtain ⟨kv, hkv, hfst⟩ := List.mem_map.mp h
      have hsome : (deviceTypeKeys.find? (fun x => x.1 == rustLowercase s)).isSome = true :=
        List.find?_isSome.mpr ⟨kv, hkv, by simp [hfst]⟩
      rw [DeviceType.fromStr]
      cases hfind : deviceTypeKeys.find? (fun x => x.1 == rustLowercase s) with
      | none =>
        rw [hfind] at hsome
        simp at hsome
      | some kv2 => simp

/-- Closed instance of C10: `weirdgadget` is outside the recognized set,
so a brand entry carrying it falls back to the file default (`tv` here)
and a model entry carrying it yields no override; `Television` (with an
ASCII uppercase initial) is recognized as `tv`. -/
theorem claim_C10_device_type_fallback_witness :
    DeviceType.fromStr "weirdgadget".data = none ∧
    brandDeviceType (some "weirdgadget".data) DeviceType.tv = some DeviceType.tv ∧
    modelDeviceType (some "weirdgadget".data) = none ∧
    ((DeviceType.fromStr "Television".data).isSome = true ↔
      rustLowercase "Television".data ∈ deviceTypeKeys.map (·.1)) := by
  have h1 := claim_C10_device_type_fallback "weirdgadget".data DeviceType.tv
  have h2 := claim_C10_device_type_fallback "Television".data DeviceType.tv
  exact ⟨by decide, h1.1 (by decide), h1.2.1 (by decide), h2.2.2⟩

/-! ## C6: the Overall device pre-filter is conservative -/

/-- A word matched by a member of the union is matched by the union. -/
theorem altList_rmatch_of_mem {rs : List (RegularExpression Char)}
    {r : RegularExpression Char} (hr : r ∈ rs) {w : Str}
    (h : r.rmatch w = true) : (altList rs).rmatch w = true := by
  induction hr with
  | head as =>
    exact (RegularExpression.add_rmatch_iff r (altList as) w).mpr (Or.inl h)
  | tail b hmem ih =>
    rename_i as
    exact (RegularExpression.add_rmatch_iff b (altList as) w).mpr (Or.inr ih)

/-- The wrapped union is matched whenever a wrapped member is matched. -/
theorem boundaryMatch_mono {rs : List (RegularExpression Char)}
    {r : RegularExpression Char} (hr : r ∈ rs)
    (bnd : RegularExpression Char) (s : Str)
    (h : boundaryMatch bnd r s = true) : boundaryMatch bnd (altList rs) s = true := by
  have hsplit : (s.inits.any fun i => r.rmatch i) = true ∨
      (s.tails.any fun t => t.inits.any fun i => (bnd * r).rmatch i) = true := by
    simpa [boundaryMatch, searchRmatch] using h
  have hgoal : (s.inits.any fun i => (altList rs).rmatch i) = true ∨
      (s.tails.any fun t => t.inits.any fun i => (bnd * altList rs).rmatch i) = true := by
    rcases hsplit with h1 | h1
    · left
      obtain ⟨i, hmem, hi⟩ := List.any_eq_true.mp h1
      exact List.any_eq_true.mpr ⟨i, hmem, altList_rmatch_of_mem hr hi⟩
    · right
      obtain ⟨t, htmem, ht⟩ := List.any_eq_true.mp h1
      obtain ⟨i, himem, hi⟩ := List.any_eq_true.mp ht
      obtain ⟨u, v, huv, hu, hv⟩ := (RegularExpression.mul_rmatch_iff bnd r i).mp hi
      have hi2 : ((bnd * altList rs).rmatch i : Bool) = true :=
        (RegularExpression.mul_rmatch_iff bnd (altList rs) i).mpr
          ⟨u, v, huv, hu, altList_rmatch_of_mem hr hv⟩
      exact List.any_eq_true.mpr ⟨t, htmem, List.any_eq_true.mpr ⟨i, himem, hi2⟩⟩
  simpa [boundaryMatch, searchRmatch] using hgoal

/-- C6: if the Overall pre-filter — the `|`-join of all brand gate
patterns of a device file, wrapped once with the boundary alternative —
does not match the UA, then no individually wrapped brand gate pattern
of that file matches the UA. -/
theorem claim_C6_overall_prefilter_sound (bnd : RegularExpression Char)
    (rs : List (RegularExpression Char)) (s : Str)
    (h : overallPrefilterMatch bnd rs s = false) :
    ∀ r ∈ rs, boundaryMatch bnd r s = false := by
  intro r hr
  cases hb : boundaryMatch bnd r s with
  | false => rfl
  | true =>
    have hne : rs.isEmpty = false := by
      cases rs with
      | nil => cases hr
      | cons a l => rfl
    rw [overallPrefilterMatch, hne] at h
    simp only [Bool.false_eq_true, if_false] at h
    rw [boundaryMatch_mono hr bnd s hb] at h
    cases h

/-- Closed instance of C6: a two-brand file whose combined pre-filter
misses the UA, so each wrapped brand gate misses it too. -/
theorem claim_C6_overall_prefilter_sound_witness :
    overallPrefilterMatch (RegularExpression.char 'x')
      [RegularExpression.char 'a', RegularExpression.char 'b'] "cc".data = false ∧
    boundaryMatch (RegularExpression.char 'x') (RegularExpression.char 'a')
      "cc".data = false :=
  ⟨by decide,
   claim_C6_overall_prefilter_sound (RegularExpression.char 'x')
     [RegularExpression.char 'a', RegularExpression.char 'b'] "cc".data
     (by decide) (RegularExpression.char 'a') (List.mem_cons_self _ _)⟩

/-! ## C2: the bot short-circuit -/

/-- C2: whenever the returned `Detection` has `bot` present, its `os`,
`client` and `device` are all `none` — a bot match returns immediately
and no later pipeline step populates another facet. -/
theorem claim_C2_bot_short_circuit (d : Detector) (ua : Str)
    (hints : Option ClientHints)
    (h : (parseWithHints d ua hints).bot.isSome = true) :
    (parseWithHints d ua hints).os = none ∧
    (parseWithHints d ua hints).client = none ∧
    (parseWithHints d ua hints).device = none := by
  unfold parseWithHints at h ⊢
  cases hb : d.botMatcher ua with
  | some m => exact ⟨rfl, rfl, rfl⟩
  | none =>
    rw [hb] at h
    simp at h

/-- Closed instance of C2 on a detector whose bot rule fires. -/
theorem claim_C2_bot_short_circuit_witness :
    (parseWithHints botOnlyDetector "ua".data none).bot.isSome = true ∧
    (parseWithHints botOnlyDetector "ua".data none).os = none ∧
    (parseWithHints botOnlyDetector "ua".data none).client = none ∧
    (parseWithHints botOnlyDetector "ua".data none).device = none := by
  have h : (parseWithHints botOnlyDetector "ua".data none).bot.isSome = true := by decide
  have h2 := claim_C2_bot_short_circuit botOnlyDetector "ua".data none h
  exact ⟨h, h2.1, h2.2.1, h2.2.2⟩

/-! ## C8: the X-Requested-With app-hint override -/

/-- C8: with hints whose `x_requested_with` resolves in `app_hints` (and
no bot match, so the pipeline reaches step 4), the final client is the
mobile-app override: name from the hint map; version kept from the
previously detected client exactly when that client's name equals the
hint name ASCII-case-insensitively, empty otherwise; engine and
engine_version empty in both cases. -/
theorem claim_C8_app_hint_override (d : Detector) (ua : Str)
    (h : ClientHints) (x app_name : Str)
    (hbot : d.botMatcher ua = none)
    (hx : h.x_requested_with = some x)
    (happ : d.appHints x = some app_name) :
    (parseWithHints d ua (some h)).client =
      some { kind := ClientType.mobileApp, name := app_name,
             version := match detectClient d ua with
               | some c => if eqIgnoreAsciiCase c.name app_name then c.version else []
               | none => [],
             engine := [], engine_version := [] } := by
  unfold parseWithHints
  rw [hbot]
  dsimp only
  unfold finalClient applyXrwOverride
  have hb : (some h).bind (·.x_requested_with) = some x := hx
  rw [hb]
  dsimp only
  rw [happ]
  dsimp only
  cases hc : detectClient d ua with
  | none => rfl
  | some c =>
    dsimp only
    cases hk : eqIgnoreAsciiCase c.name app_name with
    | false => simp [hk]
    | true => simp [hk]

/-- Closed instance of C8: the hint resolves, no client was detected, so
the override client carries the hint name with empty version. -/
theorem claim_C8_app_hint_override_witness :
    (parseWithHints emptyDetector "ua".data
        (some { x_requested_with := some "com.example.app".data,
                model := none, mobile := none })).client =
      some { kind := ClientType.mobileApp, name := "Example App".data,
             version := [], engine := [], engine_version := [] } := by
  have h := claim_C8_app_hint_override emptyDetector "ua".data
    { x_requested_with := some "com.example.app".data, model := none, mobile := none }
    "com.example.app".data "Example App".data rfl rfl (by decide)
  simpa using h

/-! ## C9: the device emit condition -/

/-- C9: with no bot match, the returned `Detection` carries a device
exactly when the pipeline's final device type is set or its final brand
is non-empty; in particular, when both are absent (even if the final
model is non-empty, e.g. filled from the `Sec-CH-UA-Model` hint) no
device is emitted. -/
theorem emitDevice_aux (o : Option DeviceType) (b m : Str) :
    ((if o.isSome || !b.isEmpty then
        some { kind := o, brand := b, model := m : Device } else none).isSome = true ↔
      (o.isSome = true ∨ b ≠ [])) ∧
    ((o = none ∧ b = []) →
      (if o.isSome || !b.isEmpty then
        some { kind := o, brand := b, model := m : Device } else none) = none) := by
  cases o with
  | some t => simp
  | none =>
    cases b with
    | nil => simp
    | cons c bs => simp

theorem claim_C9_device_emit_iff (d : Detector) (ua : Str)
    (hints : Option ClientHints)
    (hbot : d.botMatcher ua = none) :
    ((parseWithHints d ua hints).device.isSome = true ↔
      ((deviceFinals d ua hints (detectOs d ua) (finalClient d ua hints)).1.isSome = true ∨
       (deviceFinals d ua hints (detectOs d ua) (finalClient d ua hints)).2.1 ≠ [])) ∧
    (((deviceFinals d ua hints (detectOs d ua) (finalClient d ua hints)).1 = none ∧
      (deviceFinals d ua hints (detectOs d ua) (finalClient d ua hints)).2.1 = []) →
      (parseWithHints d ua hints).device = none) := by
  unfold parseWithHints
  rw [hbot]
  dsimp only
  exact emitDevice_aux
    (deviceFinals d ua hints (detectOs d ua) (finalClient d ua hints)).1
    (deviceFinals d ua hints (detectOs d ua) (finalClient d ua hints)).2.1
    (deviceFinals d ua hints (detectOs d ua) (finalClient d ua hints)).2.2

/-- Closed instance of C9: the empty detector with only a model hint set
emits no device, although the hint model is non-empty. -/
theorem claim_C9_device_emit_iff_witness :
    (parseWithHints emptyDetector "ua".data
        (some { x_requested_with := none, model := some "Pixel 9".data,
                mobile := none })).device = none := by
  have h := claim_C9_device_emit_iff emptyDetector "ua".data
    (some { x_requested_with := none, model := some "Pixel 9".data, mobile := none }) rfl
  exact h.2 (by decide)

/-! ## C3: the claims_type no-brand path -/

/-- C3 (counterexample): the frozen claim is violated when an earlier
device file already produced a result.  Both files here are shaped like
the real configuration (`shell_tv.yml` before `televisions.yml`, both
`claims_type` with default `tv`): the second file's pre-filter matches
the UA, none of its brands match, and its flag is set, yet
`detect_device` returns the FIRST file's branded device, not the
empty-brand `tv` device the claim promises. -/
theorem claim_C3_counterexample :
    (televisionsLike.2.1 "HbbTV/1.4.1 tclwebkit".data = true ∧
     televisionsLike.2.2.2 "HbbTV/1.4.1 tclwebkit".data = none ∧
     televisionsLike.2.2.1 = true) ∧
    detectDeviceList [shellTvLike, televisionsLike] "HbbTV/1.4.1 tclwebkit".data =
      some { kind := some DeviceType.tv, brand := "TCL".data, model := [] } ∧
    detectDeviceList [shellTvLike, televisionsLike] "HbbTV/1.4.1 tclwebkit".data ≠
      some { kind := some DeviceType.tv, brand := [], model := [] } :=
  ⟨⟨rfl, rfl, rfl⟩, by decide, by decide⟩

/-- C3 (amended): if a `claims_type` device file's pre-filter matches
the UA, none of its brands match, and every EARLIER device file yields
nothing for that UA, then `detect_device` returns a device with the
file's default type and empty brand and model — and this holds for every
tail of later files, which are therefore never consulted. -/
theorem claim_C3_claims_type_amended (pre post : List DeviceFileSpec)
    (dt : DeviceType) (pf : Str → Bool) (bm : Str → Option BrandMatch) (ua : Str)
    (hpre : ∀ sp ∈ pre, fileYield sp ua = none)
    (hpf : pf ua = true) (hbm : bm ua = none) :
    detectDeviceList (pre ++ (dt, pf, true, bm) :: post) ua =
      some { kind := some dt, brand := [], model := [] } := by
  unfold detectDeviceList
  induction pre with
  | nil =>
    rw [List.nil_append, List.findSome?_cons]
    have hy : fileYield (dt, pf, true, bm) ua =
        some { kind := some dt, brand := [], model := [] } := by
      simp [fileYield, hpf, hbm]
    rw [hy]
  | cons a pre ih =>
    rw [List.cons_append, List.findSome?_cons]
    rw [hpre a (List.mem_cons_self a pre)]
    exact ih fun sp hsp => hpre sp (List.mem_cons_of_mem a hsp)

/-- Closed instance of the amended C3 theorem: a single claims_type file
whose pre-filter passes and whose brands all miss. -/
theorem claim_C3_claims_type_amended_witness :
    detectDeviceList [televisionsLike] "HbbTV/1.4.1 (;;;;)".data =
      some { kind := some DeviceType.tv, brand := [], model := [] } :=
  claim_C3_claims_type_amended [] [] DeviceType.tv (fun _ => true) (fun _ => none)
    "HbbTV/1.4.1 (;;;;)".data (fun sp hsp => by cases hsp) rfl rfl

/-! ## C4: engine resolution -/

/-- C4 (code_bug evidence): `engine.versions = (1 → Blink)` with NO
`engine.default`, browser version `2`, engine matcher missing: the code
ignores the version table entirely and returns `("", "")`, while the
identical rule with a present-but-empty default applies the table and
returns `("Blink", "")` — the behaviour the claim (and spec §4.7)
describes for both shapes. -/
theorem claim_C4_engine_versions_ignored :
    resolveEngine (fun _ => none) "ua".data clientNoDefaultEngine "2".data = ([], []) ∧
    resolveEngine (fun _ => none) "ua".data clientEmptyDefaultEngine "2".data =
      ("Blink".data, []) :=
  ⟨by decide, by decide⟩

/-- Closed instance of C1 on a three-rule table: rule 0 standard and not
matching the UA, rules 1 and 2 fancy with both matching; the split
engine picks rule 1, the smallest matching index. -/
theorem claim_C1_first_match_equiv_witness :
    cpMatchFirst 3 (fun i => decide (i = 0)) (fun i => decide (1 ≤ i)) = some 1 ∧
    (1 < 3 ∧ decide (1 ≤ 1) = true ∧ ∀ j, j < 1 → decide (1 ≤ j) = false) := by
  have h := claim_C1_first_match_equiv 3 (fun i => decide (i = 0)) (fun i => decide (1 ≤ i))
  refine ⟨?_, h.2.2.1 1 (by decide)⟩
  rw [h.1]
  decide

end DeviceDetectorRs
